import Mathlib

/-!
Verification of the treeherder performance-sheriffing configuration and of the
spec-described sheriffing components (change-point detection, backfill
scheduling, orchestration).

The configuration constants below are embedded from
`treeherder/config/settings.py`.  Python `timedelta` values are embedded as a
count of seconds.  Components whose code is not part of the available sources
(ChangePointDetector, BackfillScheduler, SheriffBot) are modelled from the
specification, as noted on each definition.
-/

namespace Treeherder

/-- A Python `timedelta(hours=h)`, embedded as a number of seconds. -/
def timedeltaHours (h : Nat) : Nat := h * 3600

/-- A Python `timedelta(weeks=w)`, embedded as a number of seconds. -/
def timedeltaWeeks (w : Nat) : Nat := w * 7 * 24 * 3600

/-- A Python `timedelta(minutes=m)`, embedded as a number of seconds. -/
def timedeltaMinutes (m : Nat) : Nat := m * 60

/-- From settings.py: `CELERY_STATS_PUBLICATION_DELAY = 5` (minutes). -/
def CELERY_STATS_PUBLICATION_DELAY : Nat := 5

/-- From settings.py: the module-load assertion
`assert 0 < CELERY_STATS_PUBLICATION_DELAY < 60 and 60 % 10 == 0`,
embedded as a predicate on the configured delay `d`.  The Python chained
comparison `0 < d < 60` is `0 < d and d < 60`; the final conjunct `60 % 10 == 0`
is written exactly as in the source. -/
def celeryStatsDelayValid (d : Nat) : Bool :=
  (decide (0 < d) && decide (d < 60)) && (60 % 10 == 0)

/-- From settings.py: `PERFHERDER_REGRESSION_THRESHOLD = 2` (percent). -/
def PERFHERDER_REGRESSION_THRESHOLD : Nat := 2

/-- From settings.py: `PERFHERDER_ALERTS_MIN_BACK_WINDOW = 12`. -/
def PERFHERDER_ALERTS_MIN_BACK_WINDOW : Nat := 12

/-- From settings.py: `PERFHERDER_ALERTS_MAX_BACK_WINDOW = 24`. -/
def PERFHERDER_ALERTS_MAX_BACK_WINDOW : Nat := 24

/-- From settings.py: `PERFHERDER_ALERTS_FORE_WINDOW = 12`. -/
def PERFHERDER_ALERTS_FORE_WINDOW : Nat := 12

/-- From settings.py: `QUANTIFYING_PERIOD = timedelta(weeks=24)`. -/
def QUANTIFYING_PERIOD : Nat := timedeltaWeeks 24

/-- From settings.py: `BUG_COOLDOWN_TIME = timedelta(weeks=2)`. -/
def BUG_COOLDOWN_TIME : Nat := timedeltaWeeks 2

/-- From settings.py: `PERFHERDER_ALERTS_MAX_AGE = timedelta(weeks=2)`;
only generate alerts for data newer than this. -/
def PERFHERDER_ALERTS_MAX_AGE : Nat := timedeltaWeeks 2

/-- From settings.py: `SUPPORTED_PLATFORMS = ["windows", "linux", "osx"]`. -/
def SUPPORTED_PLATFORMS : List String := ["windows", "linux", "osx"]

/-- From settings.py: the dict
`MAX_BACKFILLS_PER_PLATFORM = {"windows": 200, "linux": 200, "osx": 20}`,
embedded as an association list in source order. -/
def MAX_BACKFILLS_PER_PLATFORM : List (String × Nat) :=
  [("windows", 200), ("linux", 200), ("osx", 20)]

/-- From settings.py: `RESET_BACKFILL_LIMITS = timedelta(hours=24)`. -/
def RESET_BACKFILL_LIMITS : Nat := timedeltaHours 24

/-- From settings.py: `TIME_TO_MATURE = timedelta(hours=4)`. -/
def TIME_TO_MATURE : Nat := timedeltaHours 4

/-- Dictionary access `MAX_BACKFILLS_PER_PLATFORM[p]` as an optional lookup. -/
def capOf (p : String) : Option Nat := MAX_BACKFILLS_PER_PLATFORM.lookup p

/-- Modelled from the spec: the source comment above `PERFHERDER_ALERTS_MAX_AGE`
says alerts are only generated for data newer than that age; the alert
generation code itself is not among the available sources.  The gate admits a
data point of the given age (in seconds) to alert generation. -/
def alertAgeWithinLimit (ageSeconds : Nat) : Bool :=
  decide (ageSeconds < PERFHERDER_ALERTS_MAX_AGE)

/-- Modelled from the spec: PlatformBackfillBudget is a process-wide counter per
platform tracking the in-flight BackfillRequest count; all increments,
decrements and resets are applied under a single atomic counter per platform.
A state gives the in-flight count of each platform. -/
def BudgetState : Type := String → Nat

/-- The budget state at startup: no request is in flight. -/
def initialBudget : BudgetState := fun _ => 0

/-- Modelled from the spec: the atomic transitions of the backfill budget.
A request is issued only if the platform has remaining capacity under
MAX_BACKFILLS_PER_PLATFORM; the budget is released on completion or timeout;
the whole budget resets unconditionally every RESET_BACKFILL_LIMITS interval.
Concurrent issuance across workers is modelled as an arbitrary interleaving of
these atomic steps. -/
inductive BudgetStep : BudgetState → BudgetState → Prop where
  | issue (s : BudgetState) (p : String) (c : Nat)
      (hcap : capOf p = some c) (hroom : s p < c) :
      BudgetStep s (fun q => if q = p then s q + 1 else s q)
  | complete (s : BudgetState) (p : String) (hpos : 0 < s p) :
      BudgetStep s (fun q => if q = p then s q - 1 else s q)
  | reset (s : BudgetState) : BudgetStep s initialBudget

/-- The budget states reachable from startup by any interleaving of steps. -/
def BudgetReachable (s : BudgetState) : Prop :=
  Relation.ReflTransGen BudgetStep initialBudget s

/-- C5: in every reachable state of the scheduler budget, the number of
in-flight backfill requests of a platform never exceeds its cap in
MAX_BACKFILLS_PER_PLATFORM, under any interleaving of concurrent issuance,
completion and reset steps. -/
theorem backfill_budget_never_exceeds_cap
    (s : BudgetState) (hs : BudgetReachable s)
    (p : String) (c : Nat) (hcap : capOf p = some c) :
    s p ≤ c := by
  induction hs with
  | refl => exact Nat.zero_le c
  | tail hsteps hstep ih =>
    cases hstep with
    | issue p2 c2 hq hroom =>
      by_cases hpq : p = p2
      · subst hpq
        have hd : c2 = c := by
          rw [hcap] at hq
          exact (Option.some.inj hq).symm
        simp only [if_pos]
        omega
      · simp only [if_neg hpq]
        exact ih
    | complete p2 hpos =>
      by_cases hpq : p = p2
      · subst hpq
        simp only [if_pos]
        omega
      · simp only [if_neg hpq]
        exact ih
    | reset => exact Nat.zero_le c

/-- Witness for C5: the initial state is reachable and the theorem applies to
it at platform "osx", whose cap is 20. -/
theorem backfill_budget_never_exceeds_cap_witness :
    BudgetReachable initialBudget ∧ initialBudget "osx" ≤ 20 :=
  ⟨Relation.ReflTransGen.refl,
   backfill_budget_never_exceeds_cap initialBudget
     Relation.ReflTransGen.refl "osx" 20 rfl⟩

/-- C10: PERFHERDER_ALERTS_MAX_AGE is exactly a two-week timedelta
(1209600 seconds), and the alert-generation age gate rejects every data point
older than that, so data older than two weeks never produces an alert. -/
theorem perfherder_alerts_max_age_two_weeks :
    PERFHERDER_ALERTS_MAX_AGE = timedeltaWeeks 2 ∧
    PERFHERDER_ALERTS_MAX_AGE = 1209600 ∧
    ∀ ageSeconds : Nat, PERFHERDER_ALERTS_MAX_AGE < ageSeconds →
      alertAgeWithinLimit ageSeconds = false := by
  refine ⟨by decide, by decide, fun a ha => ?_⟩
  simp only [alertAgeWithinLimit, decide_eq_false_iff_not, not_lt]
  omega

/-- Witness for C10: a data point aged one second over two weeks is rejected
by the age gate. -/
theorem perfherder_alerts_max_age_two_weeks_witness :
    PERFHERDER_ALERTS_MAX_AGE < 1209601 ∧ alertAgeWithinLimit 1209601 = false :=
  ⟨by decide,
   perfherder_alerts_max_age_two_weeks.2.2 1209601 (by decide)⟩

/-- Modelled from the spec: the ChangePointDetector configuration
(min and max back-window size, fore-window size), together with the two
emission thresholds.  The significance test is the documented intent, an
unpaired Welch t-test; since only the absolute t-statistic is ever compared,
the statistic and its threshold are carried squared, which keeps every
quantity rational. -/
structure DetectorConfig where
  minBackWindow : Nat
  maxBackWindow : Nat
  foreWindow : Nat
  tThresholdSq : ℚ
  magnitudeThreshold : ℚ

/-- Modelled from the spec: a candidate change point: split position, the two
window means and sizes, and the squared t-statistic. -/
structure ChangePoint where
  index : Nat
  beforeMean : ℚ
  afterMean : ℚ
  beforeN : Nat
  afterN : Nat
  tStatSq : ℚ
deriving DecidableEq

/-- Sum of a list of rationals. -/
def sumQ : List ℚ → ℚ
  | [] => 0
  | x :: xs => x + sumQ xs

/-- Mean of a sample (0 for the empty sample, by rational division by zero). -/
def meanQ (l : List ℚ) : ℚ := sumQ l / (l.length : ℚ)

/-- Unbiased sample variance of a sample; 0 when the sample has fewer than two
points (again by rational division by zero).  It is 0 exactly on all-identical
samples. -/
def sampleVar (l : List ℚ) : ℚ :=
  sumQ (l.map fun x => (x - meanQ l) * (x - meanQ l)) / ((l.length : ℚ) - 1)

/-- Modelled from the spec: the squared Welch t-statistic of the two windows.
Zero-variance windows (all-identical values) are treated as non-significant
regardless of magnitude, to avoid division by zero in the statistic: the
result is `none` in that case. -/
def welchTSq (back fore : List ℚ) : Option ℚ :=
  if sampleVar back = 0 ∨ sampleVar fore = 0 then none
  else
    some (((meanQ fore - meanQ back) * (meanQ fore - meanQ back)) /
      (sampleVar back / (back.length : ℚ) + sampleVar fore / (fore.length : ℚ)))

/-- The back sample window of size `w` ending at position `i` (exclusive). -/
def backWindow (series : List ℚ) (i w : Nat) : List ℚ :=
  (series.drop (i - w)).take w

/-- The fore sample window starting at position `i`. -/
def foreWindowOf (cfg : DetectorConfig) (series : List ℚ) (i : Nat) : List ℚ :=
  (series.drop i).take cfg.foreWindow

/-- The relative magnitude of a split in percent. -/
def magnitudePct (beforeMean afterMean : ℚ) : ℚ :=
  |afterMean - beforeMean| / beforeMean * 100

/-- Of two candidates, the one with the higher squared t-statistic (the first
on ties). -/
def betterCandidate (a b : ChangePoint) : ChangePoint :=
  if b.tStatSq > a.tStatSq then b else a

/-- The candidate with the highest squared t-statistic of a list, if any. -/
def pickBest (l : List ChangePoint) : Option ChangePoint :=
  l.foldl
    (fun acc c =>
      match acc with
      | none => some c
      | some b => some (betterCandidate b c))
    none

/-- Modelled from the spec: the candidate emitted at split position `i`, if
any.  Over the admissible back-window sizes the one maximizing the statistical
separation is chosen; the split is emitted only if its t-statistic exceeds the
significance threshold and its relative magnitude exceeds the configured
regression threshold. -/
def candidateAt (cfg : DetectorConfig) (series : List ℚ) (i : Nat) :
    Option ChangePoint :=
  let fore := foreWindowOf cfg series i
  let sizes := (List.range (cfg.maxBackWindow + 1)).filter
    fun w => decide (cfg.minBackWindow ≤ w ∧ w ≤ i)
  let cands := sizes.filterMap fun w =>
    (welchTSq (backWindow series i w) fore).map fun t =>
      ⟨i, meanQ (backWindow series i w), meanQ fore, w, cfg.foreWindow, t⟩
  match pickBest cands with
  | none => none
  | some b =>
    if b.tStatSq > cfg.tThresholdSq ∧
        magnitudePct b.beforeMean b.afterMean > cfg.magnitudeThreshold
    then some b else none

/-- The admissible split positions: the first min-back-window and the last
fore-window points of the series are excluded. -/
def splitPositions (cfg : DetectorConfig) (series : List ℚ) : List Nat :=
  (List.range (series.length + 1)).filter
    fun i => decide (cfg.minBackWindow ≤ i ∧ i + cfg.foreWindow ≤ series.length)

/-- Merging pass: overlapping candidates within one fore window of each other
are merged, keeping the one with the highest absolute t-statistic. -/
def mergeRun (fw : Nat) (cur : ChangePoint) : List ChangePoint → List ChangePoint
  | [] => [cur]
  | c :: rest =>
    if c.index - cur.index ≤ fw then mergeRun fw (betterCandidate cur c) rest
    else cur :: mergeRun fw c rest

/-- Merge a position-ordered candidate list. -/
def mergeCandidates (fw : Nat) : List ChangePoint → List ChangePoint
  | [] => []
  | c :: rest => mergeRun fw c rest

/-- Modelled from the spec: the ChangePointDetector: the merged sequence of
candidates over all admissible split positions, ordered by series position. -/
def detectChangePoints (cfg : DetectorConfig) (series : List ℚ) :
    List ChangePoint :=
  mergeCandidates cfg.foreWindow
    ((splitPositions cfg series).filterMap (candidateAt cfg series))

/-- Modelled from the spec: classification at alert creation: a change is a
regression when the after mean is worse than the before mean under the
signature polarity (lower-is-better or higher-is-better). -/
def isRegression (lowerIsBetter : Bool) (beforeMean afterMean : ℚ) : Bool :=
  if lowerIsBetter then decide (beforeMean < afterMean)
  else decide (afterMean < beforeMean)

/-- The shipped detector configuration of settings.py: window sizes 12, 24 and
12 and the 2 percent regression threshold; the significance threshold is not
part of the available sources and stays a parameter. -/
def shippedDetectorConfig (tThresholdSq : ℚ) : DetectorConfig :=
  ⟨PERFHERDER_ALERTS_MIN_BACK_WINDOW, PERFHERDER_ALERTS_MAX_BACK_WINDOW,
   PERFHERDER_ALERTS_FORE_WINDOW, tThresholdSq,
   (PERFHERDER_REGRESSION_THRESHOLD : ℚ)⟩

/-- The series of the §8 scenario. -/
def scenarioSeries : List ℚ := [10, 10, 10, 10, 20, 20, 20, 20]

/-- The §8 scenario configuration: min back window 3 and fore window 3 as
stated; the scenario names no max back window, so it equals the min, and the
significance threshold squared is 49 (t = 7).  The emission result proved
below holds for any choice of these two: every admissible window pair of the
scenario series contains a zero-variance window. -/
def scenarioConfig : DetectorConfig :=
  ⟨3, 3, 3, 49, (PERFHERDER_REGRESSION_THRESHOLD : ℚ)⟩

/-- Counterexample to C6: on the scenario series the detector emits no
ChangePoint at all (so not exactly one at index 4): both windows of every
admissible split have zero variance or fail significance, and in particular
the split at index 4 compares the all-identical windows [10,10,10] and
[20,20,20], which the zero-variance rule makes non-significant regardless of
its 100 percent magnitude. -/
theorem scenario_series_emits_no_change_point :
    detectChangePoints scenarioConfig scenarioSeries = [] := by
  norm_num [detectChangePoints, mergeCandidates, splitPositions, candidateAt,
    foreWindowOf, backWindow, welchTSq, sampleVar, meanQ, sumQ, pickBest,
    scenarioConfig, scenarioSeries, List.range_succ]

/-- C6 amended: on the scenario series the split at index 4 has before mean 10,
after mean 20, relative magnitude 100 percent, and would be classified as a
regression under lower-is-better polarity, but both of its windows have zero
variance, so the zero-variance rule of the detector treats it as
non-significant and no ChangePoint is emitted. -/
theorem scenario_series_zero_variance_split :
    detectChangePoints scenarioConfig scenarioSeries = [] ∧
    backWindow scenarioSeries 4 3 = [10, 10, 10] ∧
    foreWindowOf scenarioConfig scenarioSeries 4 = [20, 20, 20] ∧
    meanQ (backWindow scenarioSeries 4 3) = 10 ∧
    meanQ (foreWindowOf scenarioConfig scenarioSeries 4) = 20 ∧
    sampleVar (backWindow scenarioSeries 4 3) = 0 ∧
    sampleVar (foreWindowOf scenarioConfig scenarioSeries 4) = 0 ∧
    welchTSq (backWindow scenarioSeries 4 3)
      (foreWindowOf scenarioConfig scenarioSeries 4) = none ∧
    magnitudePct 10 20 = 100 ∧
    isRegression true 10 20 = true := by
  refine ⟨?_, rfl, rfl, ?_, ?_, ?_, ?_, ?_, ?_, ?_⟩
  · norm_num [detectChangePoints, mergeCandidates, splitPositions, candidateAt,
      foreWindowOf, backWindow, welchTSq, sampleVar, meanQ, sumQ, pickBest,
      scenarioConfig, scenarioSeries, List.range_succ]
  · norm_num [meanQ, sumQ, backWindow, scenarioSeries]
  · norm_num [meanQ, sumQ, foreWindowOf, scenarioConfig, scenarioSeries]
  · norm_num [sampleVar, meanQ, sumQ, backWindow, scenarioSeries]
  · norm_num [sampleVar, meanQ, sumQ, foreWindowOf, scenarioConfig, scenarioSeries]
  · norm_num [welchTSq, sampleVar, meanQ, sumQ, backWindow, foreWindowOf,
      scenarioConfig, scenarioSeries]
  · norm_num [magnitudePct]
  · norm_num [isRegression]

/-- C1: MAX_BACKFILLS_PER_PLATFORM maps "windows" to 200, "linux" to 200 and
"osx" to 20, and these three are its only entries. -/
theorem max_backfills_per_platform_config :
    capOf "windows" = some 200 ∧ capOf "linux" = some 200 ∧
    capOf "osx" = some 20 ∧
    MAX_BACKFILLS_PER_PLATFORM.map Prod.fst = ["windows", "linux", "osx"] := by
  decide

/-- C2: the configured regression threshold, the minimum relative magnitude in
percent that a candidate change point must exceed, equals 2 in the shipped
configuration. -/
theorem perfherder_regression_threshold_is_two_percent :
    PERFHERDER_REGRESSION_THRESHOLD = 2 ∧
    ∀ t : ℚ, (shippedDetectorConfig t).magnitudeThreshold = 2 := by
  exact ⟨rfl, fun t => by norm_num [shippedDetectorConfig, PERFHERDER_REGRESSION_THRESHOLD]⟩

/-- C3: RESET_BACKFILL_LIMITS, the interval after which the per-platform
backfill budgets are reset, is exactly 24 hours (86400 seconds). -/
theorem reset_backfill_limits_is_24_hours :
    RESET_BACKFILL_LIMITS = timedeltaHours 24 ∧ RESET_BACKFILL_LIMITS = 86400 := by
  decide

/-- C4: the shipped sliding-window detector configuration is well formed:
min back window 12, max back window 24, fore window 12, the back-window size
interval is non-empty and the fore window is strictly positive. -/
theorem sliding_window_config_well_formed :
    PERFHERDER_ALERTS_MIN_BACK_WINDOW = 12 ∧
    PERFHERDER_ALERTS_MAX_BACK_WINDOW = 24 ∧
    PERFHERDER_ALERTS_FORE_WINDOW = 12 ∧
    PERFHERDER_ALERTS_MIN_BACK_WINDOW ≤ PERFHERDER_ALERTS_MAX_BACK_WINDOW ∧
    0 < PERFHERDER_ALERTS_FORE_WINDOW := by
  decide

/-- C8: the key set of MAX_BACKFILLS_PER_PLATFORM is exactly the
SUPPORTED_PLATFORMS list: every supported platform has a backfill cap and no
cap is defined for an unsupported platform. -/
theorem max_backfills_keys_are_supported_platforms :
    MAX_BACKFILLS_PER_PLATFORM.map Prod.fst = SUPPORTED_PLATFORMS ∧
    ∀ p : String,
      p ∈ MAX_BACKFILLS_PER_PLATFORM.map Prod.fst ↔ p ∈ SUPPORTED_PLATFORMS := by
  exact ⟨rfl, fun _ => Iff.rfl⟩

/-- C9: the module-load assertion on CELERY_STATS_PUBLICATION_DELAY succeeds
for the shipped value 5; its second conjunct `60 % 10 == 0` does not depend on
the configured delay, so the assertion accepts every delay strictly between 0
and 60, including 7, which does not evenly divide 60 (60 % 7 = 4). -/
theorem celery_stats_delay_assertion_behavior :
    celeryStatsDelayValid CELERY_STATS_PUBLICATION_DELAY = true ∧
    (∀ d : Nat, celeryStatsDelayValid d = (decide (0 < d) && decide (d < 60))) ∧
    ((List.range 60).all fun d => (d == 0) || celeryStatsDelayValid d) = true ∧
    celeryStatsDelayValid 7 = true ∧ 60 % 7 = 4 := by
  refine ⟨by decide, fun d => ?_, by decide, by decide, by decide⟩
  simp [celeryStatsDelayValid]

/-- Modelled from the spec: a candidate change point handed to AlertGenerator,
identified by signature, platform and series position. -/
structure Candidate where
  signatureId : Nat
  platform : String
  index : Nat

/-- Modelled from the spec: the Alert fields the deduplication rule consults:
signature, platform, revision order, and whether the alert is still open
(neither dismissed nor resolved). -/
structure Alert where
  signatureId : Nat
  platform : String
  revisionOrder : Nat
  isOpen : Bool

/-- Positions `a` and `b` lie within `fw` positions of each other. -/
def withinForeWindow (fw a b : Nat) : Bool :=
  decide (a - b ≤ fw ∧ b - a ≤ fw)

/-- Modelled from the spec: the deduplication rule of AlertGenerator.  A
candidate is a duplicate if an open alert exists for the same signature and
platform whose revision order lies within fore-window positions of the
candidate index. -/
def isDuplicate (fw : Nat) (alerts : List Alert) (c : Candidate) : Bool :=
  alerts.any fun a =>
    a.isOpen && (a.signatureId == c.signatureId) && (a.platform == c.platform)
      && withinForeWindow fw a.revisionOrder c.index

/-- The Alert that AlertGenerator creates from a candidate: open, at the
candidate position. -/
def alertOf (c : Candidate) : Alert :=
  ⟨c.signatureId, c.platform, c.index, true⟩

/-- Modelled from the spec: AlertGenerator run over the candidates of one tick;
duplicates are discarded silently, first detected wins. -/
def generateAlerts (fw : Nat) : List Candidate → List Alert → List Alert
  | [], alerts => alerts
  | c :: rest, alerts =>
    if isDuplicate fw alerts c then generateAlerts fw rest alerts
    else generateAlerts fw rest (alertOf c :: alerts)

/-- Modelled from the spec: the unit of backfill work considered by the
scheduler in one tick: one missing revision of one alert. -/
structure WorkItem where
  alertId : Nat
  platform : String
  revisionOrder : Nat

/-- Modelled from the spec: a BackfillRequest record; `completed` is false
while its completion timestamp is still null. -/
structure BackfillRequest where
  alertId : Nat
  platform : String
  revisionOrder : Nat
  completed : Bool

/-- Some request for this alert and revision is still open (not completed). -/
def hasOpenRequest (reqs : List BackfillRequest) (it : WorkItem) : Bool :=
  reqs.any fun r =>
    (!r.completed) && (r.alertId == it.alertId)
      && (r.revisionOrder == it.revisionOrder)

/-- The BackfillRequest issued for a work item. -/
def requestOf (it : WorkItem) : BackfillRequest :=
  ⟨it.alertId, it.platform, it.revisionOrder, false⟩

/-- Modelled from the spec: the scheduler state of one process: the issued
requests and the in-flight count per platform. -/
structure SchedulerState where
  requests : List BackfillRequest
  inFlight : String → Nat

/-- The platform has remaining capacity under MAX_BACKFILLS_PER_PLATFORM. -/
def hasCapacity (s : SchedulerState) (p : String) : Bool :=
  match capOf p with
  | none => false
  | some c => decide (s.inFlight p < c)

/-- Issuing a request: record it and consume one budget slot. -/
def issueOne (s : SchedulerState) (it : WorkItem) : SchedulerState :=
  ⟨requestOf it :: s.requests,
   fun q => if q = it.platform then s.inFlight q + 1 else s.inFlight q⟩

/-- Modelled from the spec: BackfillScheduler run over the work items of one
tick.  A request is issued only if no request for the same alert and revision
is still open (the completed-at guard) and the platform budget has remaining
capacity; otherwise the item is deferred, not dropped. -/
def issueBackfills : List WorkItem → SchedulerState → SchedulerState
  | [], s => s
  | it :: rest, s =>
    if hasOpenRequest s.requests it then issueBackfills rest s
    else if hasCapacity s it.platform then issueBackfills rest (issueOne s it)
    else issueBackfills rest s

/-- Modelled from the spec: the per-tick input of SheriffBot: the candidates
detected from the data and the missing revisions to backfill. -/
structure TickInput where
  candidates : List Candidate
  work : List WorkItem

/-- Modelled from the spec: the state SheriffBot acts upon. -/
structure BotState where
  alerts : List Alert
  scheduler : SchedulerState

/-- Modelled from the spec: one SheriffBot tick at the shipped fore window:
generate alerts from the detected candidates with deduplication, then issue
the newly eligible backfill requests.  (The timer-driven lifecycle advance in
between consumes no budget and creates no alert, so it is not modelled here.) -/
def sheriffTick (inp : TickInput) (s : BotState) : BotState :=
  ⟨generateAlerts PERFHERDER_ALERTS_FORE_WINDOW inp.candidates s.alerts,
   issueBackfills inp.work s.scheduler⟩

theorem isDuplicate_cons (fw : Nat) (a : Alert) (alerts : List Alert)
    (c : Candidate) (h : isDuplicate fw alerts c = true) :
    isDuplicate fw (a :: alerts) c = true := by
  simp only [isDuplicate, List.any_eq_true] at h ⊢
  obtain ⟨x, hx, hpx⟩ := h
  exact ⟨x, List.mem_cons_of_mem a hx, hpx⟩

theorem isDuplicate_generateAlerts (fw : Nat) (l : List Candidate)
    (alerts : List Alert) (c : Candidate)
    (h : isDuplicate fw alerts c = true) :
    isDuplicate fw (generateAlerts fw l alerts) c = true := by
  induction l generalizing alerts with
  | nil => exact h
  | cons c2 rest ih =>
    cases hd : isDuplicate fw alerts c2 with
    | true => simpa only [generateAlerts, hd, if_pos] using ih alerts h
    | false =>
      simp only [generateAlerts, hd, Bool.false_eq_true, if_false]
      exact ih (alertOf c2 :: alerts) (isDuplicate_cons fw (alertOf c2) alerts c h)

theorem isDuplicate_alertOf (fw : Nat) (alerts : List Alert) (c : Candidate) :
    isDuplicate fw (alertOf c :: alerts) c = true := by
  simp [isDuplicate, alertOf, withinForeWindow]

theorem generateAlerts_settles (fw : Nat) (l : List Candidate)
    (alerts : List Alert) :
    ∀ c ∈ l, isDuplicate fw (generateAlerts fw l alerts) c = true := by
  induction l generalizing alerts with
  | nil => intro c hc; cases hc
  | cons c2 rest ih =>
    intro c hc
    cases hd : isDuplicate fw alerts c2 with
    | true =>
      simp only [generateAlerts, hd, if_pos]
      rcases List.mem_cons.mp hc with rfl | hmem
      · exact isDuplicate_generateAlerts fw rest alerts c hd
      · exact ih alerts c hmem
    | false =>
      simp only [generateAlerts, hd, Bool.false_eq_true, if_false]
      rcases List.mem_cons.mp hc with rfl | hmem
      · exact isDuplicate_generateAlerts fw rest (alertOf c :: alerts) c
          (isDuplicate_alertOf fw alerts c)
      · exact ih (alertOf c2 :: alerts) c hmem

theorem generateAlerts_of_all_duplicate (fw : Nat) (l : List Candidate)
    (alerts : List Alert)
    (h : ∀ c ∈ l, isDuplicate fw alerts c = true) :
    generateAlerts fw l alerts = alerts := by
  induction l with
  | nil => rfl
  | cons c rest ih =>
    have hc := h c (List.mem_cons_self c rest)
    simp only [generateAlerts, hc, if_pos]
    exact ih fun c2 hc2 => h c2 (List.mem_cons_of_mem c hc2)

theorem generateAlerts_idem (fw : Nat) (l : List Candidate)
    (alerts : List Alert) :
    generateAlerts fw l (generateAlerts fw l alerts) = generateAlerts fw l alerts :=
  generateAlerts_of_all_duplicate fw l (generateAlerts fw l alerts)
    (generateAlerts_settles fw l alerts)

/-- A work item needs nothing in this state: a request for it is already open,
or its platform has no remaining capacity. -/
def settledItem (s : SchedulerState) (it : WorkItem) : Prop :=
  hasOpenRequest s.requests it = true ∨ hasCapacity s it.platform = false

theorem hasOpenRequest_cons (r : BackfillRequest) (reqs : List BackfillRequest)
    (it : WorkItem) (h : hasOpenRequest reqs it = true) :
    hasOpenRequest (r :: reqs) it = true := by
  simp only [hasOpenRequest, List.any_eq_true] at h ⊢
  obtain ⟨x, hx, hpx⟩ := h
  exact ⟨x, List.mem_cons_of_mem r hx, hpx⟩

theorem inFlight_issueBackfills_le (l : List WorkItem) (s : SchedulerState)
    (p : String) : s.inFlight p ≤ (issueBackfills l s).inFlight p := by
  induction l generalizing s with
  | nil => exact Nat.le_refl _
  | cons it rest ih =>
    cases h1 : hasOpenRequest s.requests it with
    | true => simpa only [issueBackfills, h1, if_pos] using ih s
    | false =>
      cases h2 : hasCapacity s it.platform with
      | true =>
        simp only [issueBackfills, h1, h2, Bool.false_eq_true, if_false, if_pos]
        refine Nat.le_trans ?_ (ih (issueOne s it))
        simp only [issueOne]
        by_cases hq : p = it.platform
        · simp only [if_pos hq]; omega
        · simp only [if_neg hq]; exact Nat.le_refl _
      | false =>
        simpa only [issueBackfills, h1, h2, Bool.false_eq_true, if_false] using ih s

theorem hasOpenRequest_issueBackfills (l : List WorkItem) (s : SchedulerState)
    (it : WorkItem) (h : hasOpenRequest s.requests it = true) :
    hasOpenRequest (issueBackfills l s).requests it = true := by
  induction l generalizing s with
  | nil => exact h
  | cons it2 rest ih =>
    cases h1 : hasOpenRequest s.requests it2 with
    | true => simpa only [issueBackfills, h1, if_pos] using ih s h
    | false =>
      cases h2 : hasCapacity s it2.platform with
      | true =>
        simp only [issueBackfills, h1, h2, Bool.false_eq_true, if_false, if_pos]
        exact ih (issueOne s it2) (hasOpenRequest_cons (requestOf it2) s.requests it h)
      | false =>
        simpa only [issueBackfills, h1, h2, Bool.false_eq_true, if_false] using ih s h

theorem hasCapacity_issueBackfills_false (l : List WorkItem) (s : SchedulerState)
    (p : String) (h : hasCapacity s p = false) :
    hasCapacity (issueBackfills l s) p = false := by
  have hle := inFlight_issueBackfills_le l s p
  simp only [hasCapacity] at h ⊢
  cases hcap : capOf p with
  | none => rfl
  | some c =>
    rw [hcap] at h
    simp only [decide_eq_false_iff_not, not_lt] at h ⊢
    omega

theorem settledItem_issueBackfills (l : List WorkItem) (s : SchedulerState)
    (it : WorkItem) (h : settledItem s it) :
    settledItem (issueBackfills l s) it := by
  cases h with
  | inl h => exact Or.inl (hasOpenRequest_issueBackfills l s it h)
  | inr h => exact Or.inr (hasCapacity_issueBackfills_false l s it.platform h)

theorem issueBackfills_settles_head (it : WorkItem) (rest : List WorkItem)
    (s : SchedulerState) : settledItem (issueBackfills (it :: rest) s) it := by
  cases h1 : hasOpenRequest s.requests it with
  | true =>
    simp only [issueBackfills, h1, if_pos]
    exact settledItem_issueBackfills rest s it (Or.inl h1)
  | false =>
    cases h2 : hasCapacity s it.platform with
    | true =>
      simp only [issueBackfills, h1, h2, Bool.false_eq_true, if_false, if_pos]
      refine settledItem_issueBackfills rest (issueOne s it) it (Or.inl ?_)
      simp [issueOne, hasOpenRequest, requestOf]
    | false =>
      simp only [issueBackfills, h1, h2, Bool.false_eq_true, if_false]
      exact settledItem_issueBackfills rest s it (Or.inr h2)

theorem issueBackfills_settles (l : List WorkItem) (s : SchedulerState) :
    ∀ it ∈ l, settledItem (issueBackfills l s) it := by
  induction l generalizing s with
  | nil => intro it hit; cases hit
  | cons it2 rest ih =>
    intro it hit
    rcases List.mem_cons.mp hit with heq | hmem
    · rw [heq]
      exact issueBackfills_settles_head it2 rest s
    · cases h1 : hasOpenRequest s.requests it2 with
      | true =>
        simp only [issueBackfills, h1, if_pos]
        exact ih s it hmem
      | false =>
        cases h2 : hasCapacity s it2.platform with
        | true =>
          simp only [issueBackfills, h1, h2, Bool.false_eq_true, if_false, if_pos]
          exact ih (issueOne s it2) it hmem
        | false =>
          simp only [issueBackfills, h1, h2, Bool.false_eq_true, if_false]
          exact ih s it hmem

theorem issueBackfills_of_all_settled (l : List WorkItem) (s : SchedulerState)
    (h : ∀ it ∈ l, settledItem s it) :
    issueBackfills l s = s := by
  induction l with
  | nil => rfl
  | cons it rest ih =>
    have hrest : ∀ it2 ∈ rest, settledItem s it2 :=
      fun it2 hit2 => h it2 (List.mem_cons_of_mem it hit2)
    cases h it (List.mem_cons_self it rest) with
    | inl ho =>
      simp only [issueBackfills, ho, if_pos]
      exact ih hrest
    | inr hc =>
      cases h1 : hasOpenRequest s.requests it with
      | true =>
        simp only [issueBackfills, h1, if_pos]
        exact ih hrest
      | false =>
        simp only [issueBackfills, h1, hc, Bool.false_eq_true, if_false]
        exact ih hrest

theorem issueBackfills_idem (l : List WorkItem) (s : SchedulerState) :
    issueBackfills l (issueBackfills l s) = issueBackfills l s :=
  issueBackfills_of_all_settled l (issueBackfills l s)
    (issueBackfills_settles l s)

/-- C7: the SheriffBot tick is idempotent: run twice on the same input data it
produces the same state as run once — every candidate alert is suppressed as a
duplicate the second time, and no budget is consumed again for an
already-issued, still-open backfill request. -/
theorem sheriff_tick_idempotent (inp : TickInput) (s : BotState) :
    sheriffTick inp (sheriffTick inp s) = sheriffTick inp s := by
  simp only [sheriffTick]
  rw [generateAlerts_idem, issueBackfills_idem]

end Treeherder
